import Mathlib

/-!
Shallow embedding of the booking core of the barbershot repository
(src/controllers/reservacionController.js, src/middleware/errorHandler.js,
src/services/googleCalendarService.js), together with theorems settling the
spec claims about it.

Conventions of the embedding:
- a calendar date (`fecha`) is a day number (`Nat`); day 0 is a Sunday, so the
  JavaScript `new Date(fecha).getDay()` becomes `fecha % 7`;
- a clock time is minutes since midnight (`Nat`); `hm h m` renders the
  source's "HH:MM" literals;
- a SQL datetime `fecha horario:00` is the pair (day number, minutes);
- JavaScript truthiness of request fields is modelled per field: a missing or
  empty-string field is `none` / `""` / `0` as noted at each structure;
- database writes are list appends on an explicit `DB` state; auto-increment
  ids come from `nextClienteId` / `nextCitaId` counters.
-/

set_option linter.unusedVariables false

namespace Barbershot

/-- Minutes since midnight for the clock time h:m; used to transcribe the
"HH:MM" string literals of the source. -/
def hm (h m : Nat) : Nat := h * 60 + m

/-- Appointment status values, as validated by citaRoutes
(['pendiente', 'confirmada', 'en_proceso', 'completada', 'cancelada']);
`pendiente` is the seeded estado_id = 1 used by the booking INSERT and
`cancelada` is the row named 'Cancelada' in estados_citas. -/
inductive Estado where
  | pendiente
  | confirmada
  | enProceso
  | completada
  | cancelada
  deriving DecidableEq, Repr

/-- Row of the usuarios table (the columns the booking core reads). -/
structure Usuario where
  id : Nat
  activo : Bool
  deriving DecidableEq, Repr

/-- Row of the empleados table (the columns the booking core reads). -/
structure Empleado where
  id : Nat
  usuarioId : Nat
  activo : Bool
  deriving DecidableEq, Repr

/-- Row of the servicios table (the columns the booking core reads:
`SELECT precio FROM servicios WHERE id = ?` and the catalog duration the
spec speaks about). -/
structure Servicio where
  id : Nat
  precio : Nat
  duracion : Nat
  activo : Bool
  deriving DecidableEq, Repr

/-- Row of the clientes table. -/
structure Cliente where
  id : Nat
  usuarioId : Nat
  deriving DecidableEq, Repr

/-- Row of the citas table: fecha_hora_inicio is (fecha, inicioMin) and
fecha_hora_fin is (fecha, finMin) — the source builds both datetimes with the
same `fecha` component. -/
structure Cita where
  id : Nat
  clienteId : Nat
  empleadoId : Nat
  fecha : Nat
  inicioMin : Nat
  finMin : Nat
  estado : Estado
  deriving DecidableEq, Repr

/-- Row of the pagos table as inserted by procesarReservacion
(metodo_pago_id = 1, estado_pago_id = 1 are hardcoded). -/
structure Pago where
  citaId : Nat
  montoTotal : Nat
  metodoPagoId : Nat
  estadoPagoId : Nat
  deriving DecidableEq, Repr

/-- Row of the cita_servicio table as inserted by procesarReservacion
(descuento = 0.00, notas = NULL are hardcoded; notas is omitted here). -/
structure CitaServicio where
  citaId : Nat
  servicioId : Nat
  precioAplicado : Nat
  descuento : Nat
  deriving DecidableEq, Repr

/-- The database state visible to the booking core. -/
structure DB where
  usuarios : List Usuario
  empleados : List Empleado
  empleadoServicio : List (Nat × Nat)
  servicios : List Servicio
  clientes : List Cliente
  citas : List Cita
  pagos : List Pago
  citaServicios : List CitaServicio
  nextClienteId : Nat
  nextCitaId : Nat
  deriving DecidableEq, Repr

/-- The empty database, with auto-increment counters at 1. -/
def DB.empty : DB :=
  { usuarios := [], empleados := [], empleadoServicio := [], servicios := [],
    clientes := [], citas := [], pagos := [], citaServicios := [],
    nextClienteId := 1, nextCitaId := 1 }

/-- Weekday of a day number: 0 = Sunday … 6 = Saturday, transcribing
`new Date(fecha).getDay()`. -/
def getDay (fecha : Nat) : Nat := fecha % 7

/-- The Sunday slot list hardcoded in getHorariosDisponibles:
'09:30' … '13:30'. -/
def horariosDomingo : List Nat :=
  [hm 9 30, hm 10 0, hm 10 30, hm 11 0, hm 11 30, hm 12 0, hm 12 30,
   hm 13 0, hm 13 30]

/-- The Monday–Saturday slot list hardcoded in getHorariosDisponibles:
'09:15' … '12:45', then '14:15' … '18:15'. -/
def horariosLunesSabado : List Nat :=
  [hm 9 15, hm 9 45, hm 10 15, hm 10 45, hm 11 15, hm 11 45, hm 12 15,
   hm 12 45, hm 14 15, hm 14 45, hm 15 15, hm 15 45, hm 16 15, hm 16 45,
   hm 17 15, hm 17 45, hm 18 15]

/-- Outcome of a controller call that answers with a JSON list of slot times
(res.status(200).json) or an ErrorResponse status code (next(ErrorResponse)). -/
inductive HorariosResult where
  | ok (horarios : List Nat)
  | err (status : Nat)
  deriving DecidableEq, Repr

/-- Outcome of a controller call that answers with a JSON list of employees
or an ErrorResponse status code. -/
inductive EmpleadosResult where
  | ok (empleados : List Empleado)
  | err (status : Nat)
  deriving DecidableEq, Repr

/-- GET /api/reservacion/horarios (reservacionController.getHorariosDisponibles).
`none` marks a missing query parameter (JavaScript `!param` on a query string).
The `db` argument is deliberately unused: the source never queries the
database here — `horariosOcupados` is the hardcoded empty list (its comment
reads "aquí puedes implementar la lógica real"). -/
def getHorariosDisponibles (db : DB) (empleadoId : Option Nat) (fecha : Option Nat)
    (servicios : Option (List Nat)) : HorariosResult :=
  match empleadoId, fecha, servicios with
  | some _, some f, some _ =>
      let diaSemana := getDay f
      let horariosDisponibles :=
        if diaSemana = 0 then horariosDomingo else horariosLunesSabado
      let horariosOcupados : List Nat := []
      let horariosLibres :=
        horariosDisponibles.filter (fun horario => !horariosOcupados.contains horario)
      HorariosResult.ok horariosLibres
  | _, _, _ => HorariosResult.err 400

/-- INNER JOIN usuarios u ON e.usuario_id = u.id with u.activo = 1. -/
def usuarioActivo (db : DB) (usuarioId : Nat) : Bool :=
  db.usuarios.any (fun u => u.id == usuarioId && u.activo)

/-- GET /api/reservacion/empleados (reservacionController.getEmpleadosDisponibles).
`none` marks a missing `servicios` query parameter (400). The SQL keeps an
employee when e.activo = 1, its joined usuario is activo = 1, and
es.servicio_id IN (serviciosArray) holds for at least one of its
empleado_servicio rows; GROUP BY e.id collapses duplicates. -/
def getEmpleadosDisponibles (db : DB) (servicios : Option (List Nat)) :
    EmpleadosResult :=
  match servicios with
  | none => EmpleadosResult.err 400
  | some serviciosArray =>
      EmpleadosResult.ok (db.empleados.filter (fun e =>
        e.activo && usuarioActivo db e.usuarioId &&
          serviciosArray.any (fun s =>
            db.empleadoServicio.any (fun es => es.1 == e.id && es.2 == s))))

/-- Modelled from the spec: `listStaffForServices(serviceIds) -> [Staff]` —
"returns staff whose offered-services set is a superset of serviceIds, active,
with associated user inactive filtered out". Stated only to compare the
source's any-of semantics against the spec's all-of semantics. -/
def listStaffForServicesSpec (db : DB) (serviceIds : List Nat) : List Empleado :=
  db.empleados.filter (fun e =>
    e.activo && usuarioActivo db e.usuarioId &&
      serviceIds.all (fun s =>
        db.empleadoServicio.any (fun es => es.1 == e.id && es.2 == s)))

/-- One element of the request body's `servicios` array:
`{id, cantidad, duracion?}`. `duracion` is `none` when the client omitted the
field. -/
structure ServicioItem where
  id : Nat
  cantidad : Nat
  duracion : Option Nat
  deriving DecidableEq, Repr

/-- The authenticated caller (req.usuario): its usuarios.id and its
cliente_id column (`none` when NULL, i.e. the user has no customer profile). -/
structure ReqUsuario where
  id : Nat
  clienteId : Option Nat
  deriving DecidableEq, Repr

/-- Body of POST /api/reservacion/procesar. JavaScript truthiness of the
destructured fields is modelled as: `empleadoId = 0` for a missing/zero id,
`servicios = none` for a missing array (a present array is always truthy,
even empty), `fecha = none` for a missing/empty date string, `horario = ""`
for a missing/empty time string, and `total = none` for a missing total
(`some 0` is a present but falsy zero total). -/
structure ReqBody where
  empleadoId : Nat
  servicios : Option (List ServicioItem)
  fecha : Option Nat
  horario : String
  total : Option Nat
  deriving DecidableEq, Repr

/-- Truthiness of the `total` field: absent and 0 are both falsy. -/
def truthyTotal : Option Nat → Bool
  | none => false
  | some v => v != 0

/-- JavaScript `servicio.duracion || 30`: an absent or zero duration falls
back to 30 minutes. -/
def durOr30 : Option Nat → Nat
  | none => 30
  | some d => if d = 0 then 30 else d

/-- `servicios.reduce((total, servicio) => total + (servicio.duracion || 30) *
servicio.cantidad, 0)` — the total duration is computed from the
client-submitted items, not from the servicios table. -/
def duracionTotalDe (servicios : List ServicioItem) : Nat :=
  servicios.foldl (fun acc s => acc + durOr30 s.duracion * s.cantidad) 0

/-- Minutes since midnight of an "HH:MM" time string; models the JavaScript
parsing of `new Date(fecha + "T" + horario + ":00")` for a well-formed
five-character time, and defaults to 0 otherwise. -/
def horaToMin (s : String) : Nat :=
  match s.data with
  | [h1, h2, _, m1, m2] =>
      ((h1.toNat - 48) * 10 + (h2.toNat - 48)) * 60 +
        ((m1.toNat - 48) * 10 + (m2.toNat - 48))
  | _ => 0

/-- Outcome of POST /api/reservacion/procesar: the 200 response's data object
`{citaId, fecha, horaInicio, horaFin, total}` (with `horaInicio` the echoed
request string and `horaFin` the computed end time in minutes, standing for
its "HH:MM" rendering) or an ErrorResponse status and message. -/
inductive ProcResult where
  | ok (citaId : Nat) (fecha : Nat) (horaInicio : String) (horaFin : Nat) (total : Nat)
  | err (status : Nat) (msg : String)
  deriving DecidableEq, Repr

/-- Customer resolution step of procesarReservacion: use req.usuario.cliente_id
when present, otherwise look the clientes table up by usuario_id, otherwise
INSERT a new clientes row. Returns the resolved cliente id and the (possibly
extended) database. -/
def resolveCliente (db : DB) (usuario : ReqUsuario) : Nat × DB :=
  match usuario.clienteId with
  | some c => (c, db)
  | none =>
      match db.clientes.find? (fun c => c.usuarioId == usuario.id) with
      | some c => (c.id, db)
      | none =>
          let nuevo : Cliente := { id := db.nextClienteId, usuarioId := usuario.id }
          (nuevo.id,
           { db with clientes := db.clientes ++ [nuevo],
                     nextClienteId := db.nextClienteId + 1 })

/-- Line-item loop of procesarReservacion: for each requested servicio, SELECT
its precio by id; when the id is unknown the item is skipped (`continue`)
with only an error log; otherwise one cita_servicio row is inserted with the
snapshotted precio and descuento 0. -/
def insertDetalles (db : DB) (citaId : Nat) : List ServicioItem → DB
  | [] => db
  | s :: rest =>
      match db.servicios.find? (fun sv => sv.id == s.id) with
      | none => insertDetalles db citaId rest
      | some servicioData =>
          insertDetalles
            { db with citaServicios := db.citaServicios ++
                [{ citaId := citaId, servicioId := s.id,
                   precioAplicado := servicioData.precio, descuento := 0 }] }
            citaId rest

/-- Outcome of the notification dispatch
(notificacionService.enviarNotificacionesConfirmacion): it either returns or
throws. It touches none of the tables modelled here. -/
def enviarNotificacionesConfirmacion (notifThrows : Bool) : Except Unit Unit :=
  if notifThrows then Except.error () else Except.ok ()

/-- POST /api/reservacion/procesar (reservacionController.procesarReservacion).
`notifThrows` is the behaviour of the post-insert notification call, whose
exception the source catches and only logs. The queries run sequentially with
no transaction; each insert is an append to the corresponding table. -/
def procesarReservacion (db : DB) (usuario : ReqUsuario) (body : ReqBody)
    (notifThrows : Bool) : ProcResult × DB :=
  if body.empleadoId == 0 || body.servicios.isNone || body.fecha.isNone ||
      body.horario == "" || !truthyTotal body.total then
    (ProcResult.err 400 "Todos los campos son requeridos", db)
  else
    let resuelto := resolveCliente db usuario
    let clienteId := resuelto.1
    let db1 := resuelto.2
    let servicios := body.servicios.getD []
    let fecha := body.fecha.getD 0
    let total := body.total.getD 0
    let duracionTotal := duracionTotalDe servicios
    let inicioMin := horaToMin body.horario
    let finMin := (inicioMin + duracionTotal) % 1440
    let citaId := db1.nextCitaId
    let nuevaCita : Cita :=
      { id := citaId, clienteId := clienteId, empleadoId := body.empleadoId,
        fecha := fecha, inicioMin := inicioMin, finMin := finMin,
        estado := Estado.pendiente }
    let db2 := { db1 with citas := db1.citas ++ [nuevaCita],
                          nextCitaId := db1.nextCitaId + 1 }
    let db3 := { db2 with pagos := db2.pagos ++
                   [{ citaId := citaId, montoTotal := total,
                      metodoPagoId := 1, estadoPagoId := 1 }] }
    let db4 := insertDetalles db3 citaId servicios
    match enviarNotificacionesConfirmacion notifThrows with
    | Except.ok _ => (ProcResult.ok citaId fecha body.horario finMin total, db4)
    | Except.error _ => (ProcResult.ok citaId fecha body.horario finMin total, db4)

/-- Outcome of PUT /api/reservacion/cancelar/:id. -/
inductive CancelResult where
  | ok (msg : String)
  | err (status : Nat) (msg : String)
  deriving DecidableEq, Repr

/-- PUT /api/reservacion/cancelar/:id (reservacionController.cancelarCita):
resolve the caller's cliente id (400 when the user is no client), check the
cita exists and belongs to that client (404 otherwise), then UPDATE its
estado_id to the 'Cancelada' state — with no check of the current estado. -/
def cancelarCita (db : DB) (usuario : ReqUsuario) (citaIdParam : Nat) :
    CancelResult × DB :=
  let clienteIdResuelto : Option Nat :=
    match usuario.clienteId with
    | some c => some c
    | none => (db.clientes.find? (fun c => c.usuarioId == usuario.id)).map (fun c => c.id)
  match clienteIdResuelto with
  | none => (CancelResult.err 400 "Usuario no es un cliente válido", db)
  | some clienteId =>
      match db.citas.find? (fun c => c.id == citaIdParam && c.clienteId == clienteId) with
      | none => (CancelResult.err 404 "Cita no encontrada", db)
      | some _ =>
          let citas := db.citas.map (fun c =>
            if c.id == citaIdParam then { c with estado := Estado.cancelada } else c)
          (CancelResult.ok "Cita cancelada exitosamente", { db with citas := citas })

/-- Environment and outcomes the try block of
googleCalendarService.crearEventoCita runs against: whether the Google
credentials are configured, whether the cita lookup finds a row, and the
calendar API call's outcome (an event id or a thrown error). -/
structure CalContext where
  credsConfigured : Bool
  citaEncontrada : Bool
  apiResult : Except Unit Nat
  deriving Repr

/-- Outcome of the try block's body: `ok none` for the early credentials
return, a thrown error for a missing cita ('Cita no encontrada') or a failing
API call, and `ok (some eventId)` on success. -/
inductive CalTryResult where
  | ok (eventId : Option Nat)
  | thrown (msg : String)
  deriving DecidableEq, Repr

/-- Body of the try block of crearEventoCita, before the catch. -/
def crearEventoCitaTry (ctx : CalContext) : CalTryResult :=
  if !ctx.credsConfigured then CalTryResult.ok none
  else if !ctx.citaEncontrada then CalTryResult.thrown "Cita no encontrada"
  else
    match ctx.apiResult with
    | Except.error _ => CalTryResult.thrown "calendar API error"
    | Except.ok eventId => CalTryResult.ok (some eventId)

/-- googleCalendarService.crearEventoCita: the whole body is wrapped in
try/catch and the catch returns null ("No lanzar error, solo log"), so every
thrown error degrades to `none`. -/
def crearEventoCita (ctx : CalContext) : Option Nat :=
  match crearEventoCitaTry ctx with
  | CalTryResult.ok v => v
  | CalTryResult.thrown _ => none

/-- Fixture for C1: a database whose citas table already holds a
non-cancelled appointment of empleado 2 covering 09:15–09:45 of day 1
(a Monday). -/
def dbC1 : DB :=
  { DB.empty with
    servicios := [{ id := 1, precio := 10, duracion := 30, activo := true }],
    clientes := [{ id := 1, usuarioId := 7 }],
    citas := [{ id := 1, clienteId := 1, empleadoId := 2, fecha := 1,
                inicioMin := hm 9 15, finMin := hm 9 45,
                estado := Estado.pendiente }],
    nextClienteId := 2, nextCitaId := 2 }

/-- Fixture for C1: the authenticated customer. -/
def usuarioC1 : ReqUsuario := { id := 7, clienteId := some 1 }

/-- Fixture for C1: a booking request for the exact slot the existing
appointment of dbC1 occupies. -/
def bodyC1 : ReqBody :=
  { empleadoId := 2,
    servicios := some [{ id := 1, cantidad := 1, duracion := some 30 }],
    fecha := some 1, horario := "09:15", total := some 10 }

/-- Fixture for C2: a catalog holding only service 1 and a registered
customer. -/
def dbC2 : DB :=
  { DB.empty with
    servicios := [{ id := 1, precio := 10, duracion := 30, activo := true }],
    clientes := [{ id := 4, usuarioId := 8 }] }

/-- Fixture for C2: the authenticated customer. -/
def usuarioC2 : ReqUsuario := { id := 8, clienteId := some 4 }

/-- Fixture for C2: a booking request whose single service id 999 is not in
the servicios table. -/
def bodyC2 : ReqBody :=
  { empleadoId := 6,
    servicios := some [{ id := 999, cantidad := 1, duracion := none }],
    fecha := some 5, horario := "10:00", total := some 25 }

/-- Fixture for C3: a database whose citas table holds a non-cancelled
appointment of empleado 5 covering 09:15–09:45 of day 1 (a Monday). -/
def dbC3 : DB :=
  { DB.empty with
    citas := [{ id := 1, clienteId := 1, empleadoId := 5, fecha := 1,
                inicioMin := hm 9 15, finMin := hm 9 45,
                estado := Estado.pendiente }],
    nextCitaId := 2 }

/-- Fixture for C4: empleado 3 offers only service 2; a registered customer
exists. -/
def dbC4 : DB :=
  { DB.empty with
    servicios := [{ id := 2, precio := 15, duracion := 20, activo := true }],
    empleadoServicio := [(3, 2)],
    clientes := [{ id := 2, usuarioId := 11 }],
    nextClienteId := 3 }

/-- Fixture for C4: the authenticated customer. -/
def usuarioC4 : ReqUsuario := { id := 11, clienteId := some 2 }

/-- Fixture for C4: a booking request whose single service id 777 is unknown
and not offered by empleado 3. -/
def bodyC4 : ReqBody :=
  { empleadoId := 3,
    servicios := some [{ id := 777, cantidad := 1, duracion := none }],
    fecha := some 2, horario := "11:00", total := some 40 }

/-- resolveCliente never touches the citas table. -/
theorem resolveCliente_citas (db : DB) (usuario : ReqUsuario) :
    (resolveCliente db usuario).2.citas = db.citas := by
  unfold resolveCliente
  cases usuario.clienteId with
  | some c => rfl
  | none =>
      cases db.clientes.find? (fun c => c.usuarioId == usuario.id) with
      | some c => rfl
      | none => rfl

/-- resolveCliente never touches the citas auto-increment counter. -/
theorem resolveCliente_nextCitaId (db : DB) (usuario : ReqUsuario) :
    (resolveCliente db usuario).2.nextCitaId = db.nextCitaId := by
  unfold resolveCliente
  cases usuario.clienteId with
  | some c => rfl
  | none =>
      cases db.clientes.find? (fun c => c.usuarioId == usuario.id) with
      | some c => rfl
      | none => rfl

/-- insertDetalles only appends cita_servicio rows: the citas table is
untouched. -/
theorem insertDetalles_citas (citaId : Nat) (l : List ServicioItem) :
    ∀ db : DB, (insertDetalles db citaId l).citas = db.citas := by
  induction l with
  | nil => intro db; rfl
  | cons s rest ih =>
      intro db
      unfold insertDetalles
      cases db.servicios.find? (fun sv => sv.id == s.id) with
      | none => exact ih db
      | some servicioData => exact ih _

/-- C1: the claim says a booking request's [start,end) slot is re-validated
against existing non-cancelled appointments at commit time, failing with
ConflictError and writing nothing when the slot is taken. The code performs
no such re-check: booking the exact slot of an existing non-cancelled
appointment of the same employee succeeds with a 200 response and inserts a
second overlapping appointment (plus payment), so afterwards two
non-cancelled citas of empleado 2 occupy the 09:15–09:45 range of day 1. -/
theorem procesarReservacion_inserts_overlapping_cita :
    (procesarReservacion dbC1 usuarioC1 bodyC1 false).1 =
      ProcResult.ok 2 1 "09:15" (hm 9 45) 10 ∧
    ((procesarReservacion dbC1 usuarioC1 bodyC1 false).2.citas.filter (fun c =>
        c.empleadoId == 2 && c.estado != Estado.cancelada && c.fecha == 1 &&
          c.inicioMin < hm 9 45 && hm 9 15 < c.finMin)).length = 2 := by
  decide

/-- C2: the claim says the booking is all-or-nothing and in particular an
appointment can never be persisted together with a payment but with fewer
line items than requested services. The code runs its inserts sequentially
with no transaction and skips unknown service ids with `continue`: a request
for one service whose id (999) is not in the servicios table ends with a 200
response, one citas row and one pagos row persisted, and zero cita_servicio
rows for the one requested service. -/
theorem procesarReservacion_partial_line_items :
    (procesarReservacion dbC2 usuarioC2 bodyC2 false).1 =
      ProcResult.ok 1 5 "10:00" (hm 10 30) 25 ∧
    (procesarReservacion dbC2 usuarioC2 bodyC2 false).2.citas.length = 1 ∧
    (procesarReservacion dbC2 usuarioC2 bodyC2 false).2.pagos.length = 1 ∧
    (procesarReservacion dbC2 usuarioC2 bodyC2 false).2.citaServicios = [] ∧
    (bodyC2.servicios.getD []).length = 1 := by
  decide

/-- C3: the claim says every slot returned by GET /reservacion/horarios is
disjoint from every existing non-cancelled appointment of the staff member on
that date. The code never consults the citas table (its occupied-slot filter
is the hardcoded empty list, commented "aquí puedes implementar la lógica
real"): with a non-cancelled cita of empleado 5 covering 09:15–09:45 on day 1
(a Monday), the endpoint still returns the full weekday list including the
09:15 slot, whose start lies inside that appointment's [start,end). -/
theorem getHorariosDisponibles_overlaps_existing_cita :
    getHorariosDisponibles dbC3 (some 5) (some 1) (some [1]) =
      HorariosResult.ok horariosLunesSabado ∧
    hm 9 15 ∈ horariosLunesSabado ∧
    (∃ c ∈ dbC3.citas, c.empleadoId = 5 ∧ c.fecha = 1 ∧
      c.estado ≠ Estado.cancelada ∧ c.inicioMin ≤ hm 9 15 ∧ hm 9 15 < c.finMin) := by
  decide

/-- C4: the claim says a booking containing a service id that is unknown (or
not offered by the staff member) fails with a validation error before any row
is written. The code validates neither: a booking whose only service id (777)
is unknown returns 200, inserts the citas row and the pagos row, and merely
skips the line item, so rows for the request do exist afterwards. -/
theorem procesarReservacion_unknown_service_writes_rows :
    (procesarReservacion dbC4 usuarioC4 bodyC4 false).1 =
      ProcResult.ok 1 2 "11:00" (hm 11 30) 40 ∧
    (procesarReservacion dbC4 usuarioC4 bodyC4 false).2.citas.length =
      dbC4.citas.length + 1 ∧
    (procesarReservacion dbC4 usuarioC4 bodyC4 false).2.pagos.length =
      dbC4.pagos.length + 1 := by
  decide

/-- C5 counterexample: the claim says GET /reservacion/empleados returns
exactly the staff whose offered-services set is a superset of the requested
set. Employee 1 offers only service 1, yet the request for services {1, 2} —
whose superset test fails — still returns employee 1: the SQL IN clause
implements any-of, not all-of, semantics. -/
theorem getEmpleadosDisponibles_not_superset :
    let db := { DB.empty with
      usuarios := [{ id := 3, activo := true }],
      empleados := [{ id := 1, usuarioId := 3, activo := true }],
      empleadoServicio := [(1, 1)] }
    getEmpleadosDisponibles db (some [1, 2]) =
      EmpleadosResult.ok [{ id := 1, usuarioId := 3, activo := true }] ∧
    listStaffForServicesSpec db [1, 2] = [] := by
  decide

/-- C5 (amended): GET /reservacion/empleados fails with 400 when the
`servicios` parameter is missing, and otherwise returns exactly the active
staff members with an active linked user account who offer AT LEAST ONE of
the requested services. -/
theorem getEmpleadosDisponibles_any_of (db : DB) (req : List Nat)
    (e : Empleado) (l : List Empleado)
    (h : getEmpleadosDisponibles db (some req) = EmpleadosResult.ok l) :
    getEmpleadosDisponibles db none = EmpleadosResult.err 400 ∧
    (e ∈ l ↔ e ∈ db.empleados ∧ e.activo = true ∧
      usuarioActivo db e.usuarioId = true ∧
      ∃ s ∈ req, (e.id, s) ∈ db.empleadoServicio) := by
  refine ⟨rfl, ?_⟩
  simp only [getEmpleadosDisponibles, EmpleadosResult.ok.injEq] at h
  subst h
  simp only [List.mem_filter, Bool.and_eq_true, List.any_eq_true, beq_iff_eq]
  constructor
  · rintro ⟨hmem, ⟨hact, husr⟩, s, hs, es, hes, h1, h2⟩
    exact ⟨hmem, hact, husr, s, hs, by simpa [Prod.ext_iff, ← h1, ← h2] using hes⟩
  · rintro ⟨hmem, hact, husr, s, hs, hes⟩
    exact ⟨hmem, ⟨hact, husr⟩, s, hs, ⟨(e.id, s), hes, rfl, rfl⟩⟩

/-- C5 witness: the amended characterization applied to a concrete database
with one employee offering one of the two requested services. -/
theorem getEmpleadosDisponibles_any_of_witness :
    getEmpleadosDisponibles { DB.empty with
        usuarios := [{ id := 3, activo := true }],
        empleados := [{ id := 1, usuarioId := 3, activo := true }],
        empleadoServicio := [(1, 1)] } none = EmpleadosResult.err 400 ∧
    ({ id := 1, usuarioId := 3, activo := true } : Empleado) ∈
        [({ id := 1, usuarioId := 3, activo := true } : Empleado)] := by
  have h := getEmpleadosDisponibles_any_of
    { DB.empty with
        usuarios := [{ id := 3, activo := true }],
        empleados := [{ id := 1, usuarioId := 3, activo := true }],
        empleadoServicio := [(1, 1)] }
    [1, 2] { id := 1, usuarioId := 3, activo := true }
    [{ id := 1, usuarioId := 3, activo := true }] (by decide)
  exact ⟨h.1, h.2.mpr (by decide)⟩

/-- C6 counterexample: the claim says the persisted appointment's end equals
its start plus the sum of the catalog durations and that client-submitted
durations are never used. The code computes the duration from the request
body's `duracion` fields: with service 1's catalog duration 30, a request
claiming duracion 60 books 10:00–11:00 (not 10:00–10:30), and the same
request claiming duracion 15 books 10:00–10:15, so two bookings agreeing on
service ids but differing in client-supplied durations produce different end
times. -/
theorem procesarReservacion_client_duration_used :
    let db := { DB.empty with
      servicios := [{ id := 1, precio := 10, duracion := 30, activo := true }],
      clientes := [{ id := 1, usuarioId := 4 }], nextClienteId := 2 }
    let usuario : ReqUsuario := { id := 4, clienteId := some 1 }
    let bodyA : ReqBody := {
      empleadoId := 3,
      servicios := some [{ id := 1, cantidad := 1, duracion := some 60 }],
      fecha := some 2, horario := "10:00", total := some 10 }
    let bodyB : ReqBody := {
      empleadoId := 3,
      servicios := some [{ id := 1, cantidad := 1, duracion := some 15 }],
      fecha := some 2, horario := "10:00", total := some 10 }
    let rA := procesarReservacion db usuario bodyA false
    let rB := procesarReservacion db usuario bodyB false
    rA.1 = ProcResult.ok 1 2 "10:00" (hm 11 0) 10 ∧
    rB.1 = ProcResult.ok 1 2 "10:00" (hm 10 15) 10 ∧
    (∀ c ∈ rA.2.citas, c.finMin ≠ c.inicioMin + 30) ∧
    rA.1 ≠ rB.1 := by
  decide

/-- C6 (amended): for every booking request passing the presence check, the
persisted appointment's end time equals its start time plus the sum over the
request's servicios of (client-submitted duracion, defaulting to 30 when
absent or zero) × cantidad, taken modulo 24 hours — the catalog durations of
the servicios table are not consulted, and no client-submitted end time
exists in the request. -/
theorem procesarReservacion_fin_from_client_durations
    (db : DB) (usuario : ReqUsuario) (body : ReqBody) (notifThrows : Bool)
    (svs : List ServicioItem) (f : Nat)
    (hemp : body.empleadoId ≠ 0) (hsvs : body.servicios = some svs)
    (hf : body.fecha = some f) (hhor : body.horario ≠ "")
    (htot : truthyTotal body.total = true) :
    (procesarReservacion db usuario body notifThrows).1 =
      ProcResult.ok db.nextCitaId f body.horario
        ((horaToMin body.horario + duracionTotalDe svs) % 1440)
        (body.total.getD 0) ∧
    (procesarReservacion db usuario body notifThrows).2.citas =
      db.citas ++
        [{ id := db.nextCitaId, clienteId := (resolveCliente db usuario).1,
           empleadoId := body.empleadoId, fecha := f,
           inicioMin := horaToMin body.horario,
           finMin := (horaToMin body.horario + duracionTotalDe svs) % 1440,
           estado := Estado.pendiente }] := by
  have h1 : (body.empleadoId == 0) = false := by
    simpa using hemp
  have h2 : (body.horario == "") = false := by
    simpa using hhor
  have hcond : (body.empleadoId == 0 || body.servicios.isNone ||
      body.fecha.isNone || body.horario == "" || !truthyTotal body.total) = false := by
    rw [h1, hsvs, hf, h2, htot]
    rfl
  cases notifThrows with
  | false =>
      constructor
      · simp [procesarReservacion, hcond, hsvs, hf, hemp, hhor, htot,
          enviarNotificacionesConfirmacion, resolveCliente_nextCitaId]
      · simp [procesarReservacion, hcond, hsvs, hf, hemp, hhor, htot,
          enviarNotificacionesConfirmacion, insertDetalles_citas,
          resolveCliente_citas, resolveCliente_nextCitaId]
  | true =>
      constructor
      · simp [procesarReservacion, hcond, hsvs, hf, hemp, hhor, htot,
          enviarNotificacionesConfirmacion, resolveCliente_nextCitaId]
      · simp [procesarReservacion, hcond, hsvs, hf, hemp, hhor, htot,
          enviarNotificacionesConfirmacion, insertDetalles_citas,
          resolveCliente_citas, resolveCliente_nextCitaId]

/-- C6 witness: the amended end-time formula applied to a concrete booking of
one service with client-submitted duracion 45. -/
theorem procesarReservacion_fin_from_client_durations_witness :
    (procesarReservacion { DB.empty with clientes := [{ id := 1, usuarioId := 4 }] }
        { id := 4, clienteId := some 1 }
        { empleadoId := 3,
          servicios := some [{ id := 1, cantidad := 1, duracion := some 45 }],
          fecha := some 2, horario := "10:00", total := some 10 } false).1 =
      ProcResult.ok 1 2 "10:00"
        ((horaToMin "10:00" +
          duracionTotalDe [{ id := 1, cantidad := 1, duracion := some 45 }]) % 1440)
        10 := by
  have h := procesarReservacion_fin_from_client_durations
    { DB.empty with clientes := [{ id := 1, usuarioId := 4 }] }
    { id := 4, clienteId := some 1 }
    { empleadoId := 3,
      servicios := some [{ id := 1, cantidad := 1, duracion := some 45 }],
      fecha := some 2, horario := "10:00", total := some 10 } false
    [{ id := 1, cantidad := 1, duracion := some 45 }] 2
    (by decide) rfl rfl (by decide) (by decide)
  exact h.1

/-- C7 counterexample: the claim says a status change out of the terminal
state completed must fail with InvalidTransitionError and leave the status
unchanged. The customer cancellation endpoint checks only existence and
ownership: cancelling a cita whose estado is completada succeeds and rewrites
its estado to cancelada. -/
theorem cancelarCita_cancels_completed :
    let db := { DB.empty with
      clientes := [{ id := 1, usuarioId := 9 }],
      citas := [{ id := 1, clienteId := 1, empleadoId := 2, fecha := 3,
                  inicioMin := hm 10 0, finMin := hm 10 30,
                  estado := Estado.completada }],
      nextCitaId := 2 }
    cancelarCita db { id := 9, clienteId := some 1 } 1 =
      (CancelResult.ok "Cita cancelada exitosamente",
       { db with citas := [{ id := 1, clienteId := 1, empleadoId := 2, fecha := 3,
                             inicioMin := hm 10 0, finMin := hm 10 30,
                             estado := Estado.cancelada }] }) := by
  decide

/-- C7 (amended): PUT /reservacion/cancelar/:id sets the appointment's status
to cancelled unconditionally whenever the appointment exists and belongs to
the requesting client, whatever its current status — terminal states
included; no InvalidTransitionError exists, and a transition request is
rejected only for a missing or foreign appointment (404). -/
theorem cancelarCita_unconditional (db : DB) (usuario : ReqUsuario)
    (citaIdParam clienteId : Nat) (cita : Cita)
    (hcli : usuario.clienteId = some clienteId)
    (hfind : db.citas.find?
        (fun c => c.id == citaIdParam && c.clienteId == clienteId) = some cita) :
    cancelarCita db usuario citaIdParam =
      (CancelResult.ok "Cita cancelada exitosamente",
       { db with citas := db.citas.map (fun c =>
           if c.id == citaIdParam then { c with estado := Estado.cancelada }
           else c) }) := by
  simp [cancelarCita, hcli, hfind]

/-- C7 witness: the unconditional cancellation applied to a concrete database
holding an in-progress cita owned by the caller. -/
theorem cancelarCita_unconditional_witness :
    cancelarCita { DB.empty with
        clientes := [{ id := 2, usuarioId := 5 }],
        citas := [{ id := 7, clienteId := 2, empleadoId := 1, fecha := 4,
                    inicioMin := hm 12 0, finMin := hm 12 30,
                    estado := Estado.enProceso }] }
      { id := 5, clienteId := some 2 } 7 =
      (CancelResult.ok "Cita cancelada exitosamente",
       { DB.empty with
          clientes := [{ id := 2, usuarioId := 5 }],
          citas := [{ id := 7, clienteId := 2, empleadoId := 1, fecha := 4,
                      inicioMin := hm 12 0, finMin := hm 12 30,
                      estado := Estado.cancelada }] }) := by
  have h := cancelarCita_unconditional
    { DB.empty with
        clientes := [{ id := 2, usuarioId := 5 }],
        citas := [{ id := 7, clienteId := 2, empleadoId := 1, fecha := 4,
                    inicioMin := hm 12 0, finMin := hm 12 30,
                    estado := Estado.enProceso }] }
    { id := 5, clienteId := some 2 } 7 2
    { id := 7, clienteId := 2, empleadoId := 1, fecha := 4,
      inicioMin := hm 12 0, finMin := hm 12 30, estado := Estado.enProceso }
    rfl (by decide)
  simpa using h

/-- C8 counterexample: the claim says no slot is returned in the past
relative to the current time for a same-day query. The code never consults
the clock: with the current time 18:00 on day 1, a query for that same day
still returns the 09:15 slot, which lies in the past. -/
theorem getHorariosDisponibles_past_slot_today :
    let fecha := 1
    let nowAbs := fecha * 1440 + hm 18 0
    getHorariosDisponibles DB.empty (some 1) (some fecha) (some [1]) =
      HorariosResult.ok horariosLunesSabado ∧
    hm 9 15 ∈ horariosLunesSabado ∧
    fecha * 1440 + hm 9 15 < nowAbs := by
  decide

/-- C8 (amended): every slot list returned by GET /reservacion/horarios is in
strictly ascending chronological order (pairwise increasing); no filtering
against the current time is performed, so the order claim holds but past
slots are returned for same-day queries. -/
theorem getHorariosDisponibles_ascending (db : DB) (e f : Nat)
    (s : List Nat) (l : List Nat)
    (h : getHorariosDisponibles db (some e) (some f) (some s) =
      HorariosResult.ok l) :
    List.Pairwise (fun a b => a < b) l := by
  simp only [getHorariosDisponibles, HorariosResult.ok.injEq] at h
  by_cases hd : getDay f = 0
  · rw [if_pos hd] at h
    subst h
    decide
  · rw [if_neg hd] at h
    subst h
    decide

/-- C8 witness: the ascending-order theorem applied to a concrete Monday
query. -/
theorem getHorariosDisponibles_ascending_witness :
    List.Pairwise (fun a b => a < b) horariosLunesSabado := by
  exact getHorariosDisponibles_ascending DB.empty 1 1 [1] horariosLunesSabado
    (by decide)

/-- C9: notification dispatch and calendar-event creation are best-effort.
The booking response and the resulting database state are identical whether
the post-insert notification call returns or throws (its exception is caught
and only logged), and every error thrown inside googleCalendarService's
crearEventoCita — missing cita, failing API call — is caught by its own
try/catch and degrades to a null return instead of propagating. -/
theorem notificacion_calendar_best_effort :
    (∀ (db : DB) (usuario : ReqUsuario) (body : ReqBody),
        procesarReservacion db usuario body true =
          procesarReservacion db usuario body false) ∧
    (∀ ctx : CalContext,
        (∃ msg, crearEventoCitaTry ctx = CalTryResult.thrown msg) →
        crearEventoCita ctx = none) := by
  constructor
  · intro db usuario body
    rfl
  · rintro ctx ⟨msg, hmsg⟩
    unfold crearEventoCita
    rw [hmsg]

/-- C9 witness: the best-effort guarantees applied to a concrete booking and
to a calendar call whose cita lookup throws. -/
theorem notificacion_calendar_best_effort_witness :
    procesarReservacion DB.empty { id := 1, clienteId := some 1 }
        { empleadoId := 1, servicios := some [], fecha := some 1,
          horario := "09:15", total := some 5 } true =
      procesarReservacion DB.empty { id := 1, clienteId := some 1 }
        { empleadoId := 1, servicios := some [], fecha := some 1,
          horario := "09:15", total := some 5 } false ∧
    crearEventoCita
        { credsConfigured := true, citaEncontrada := false,
          apiResult := Except.ok 5 } = none := by
  exact ⟨notificacion_calendar_best_effort.1 _ _ _,
         notificacion_calendar_best_effort.2 _ ⟨"Cita no encontrada", rfl⟩⟩

/-- C10: the presence check of POST /reservacion/procesar tests JavaScript
truthiness, so a request whose total is 0 (or whose horario is the empty
string) is rejected with 400 'Todos los campos son requeridos' exactly as if
the field were absent, the database is left unchanged, and consequently a
zero-total booking can never be created through this endpoint. -/
theorem procesarReservacion_zero_total_rejected
    (db : DB) (usuario : ReqUsuario) (body : ReqBody) (notifThrows : Bool)
    (h : body.total = some 0 ∨ body.horario = "") :
    procesarReservacion db usuario body notifThrows =
      (ProcResult.err 400 "Todos los campos son requeridos", db) ∧
    procesarReservacion db usuario body notifThrows =
      procesarReservacion db usuario { body with total := none } notifThrows := by
  have hcond : (body.empleadoId == 0 || body.servicios.isNone ||
      body.fecha.isNone || body.horario == "" || !truthyTotal body.total) = true := by
    rcases h with h | h
    · simp [truthyTotal, h]
    · simp [h]
  have hcond2 : (body.empleadoId == 0 || body.servicios.isNone ||
      body.fecha.isNone || body.horario == "" || !truthyTotal (none : Option Nat)) = true := by
    simp [truthyTotal]
  constructor
  · unfold procesarReservacion
    rw [hcond]
    rfl
  · unfold procesarReservacion
    rw [hcond]
    simp only [hcond2]
    rfl

/-- C10 witness: a request carrying every field but with total = 0 is
rejected with the missing-fields 400 response and writes nothing. -/
theorem procesarReservacion_zero_total_rejected_witness :
    procesarReservacion DB.empty { id := 1, clienteId := some 1 }
        { empleadoId := 2, servicios := some [{ id := 1, cantidad := 1, duracion := none }],
          fecha := some 1, horario := "09:15", total := some 0 } false =
      (ProcResult.err 400 "Todos los campos son requeridos", DB.empty) := by
  exact (procesarReservacion_zero_total_rejected DB.empty
    { id := 1, clienteId := some 1 }
    { empleadoId := 2, servicios := some [{ id := 1, cantidad := 1, duracion := none }],
      fecha := some 1, horario := "09:15", total := some 0 } false
    (Or.inl rfl)).1

end Barbershot
